import Mathlib

/-!
Verification development for the authentication core of an SSO service
(files `internal/services/auth/auth.go` and `internal/lib/jwt.go`).
The Go code is shallowly embedded: collaborator interfaces become record
fields holding pure functions, Go `(value, error)` pairs become
`value × Option GoErr`, and `fmt.Errorf("%s: %w", op, err)` wrapping
becomes an explicit constructor so that `errors.Is` classification is a
recursive function on the error chain.
-/

/-- Sentinel error values (created in Go with `errors.New`) together with a
supply of arbitrary unclassified collaborator errors. Two sentinels compare
equal exactly when they are the same Go value. -/
inductive BaseErr where
  /-- `auth.ErrInvalidCredentials` (`"invalID credentials"`). -/
  | errInvalidCredentials
  /-- `auth.ErrInvalidAppID` (`"invalid appID"`). -/
  | errInvalidAppID
  /-- `auth.ErrUserExists` (`"user already exists"`). -/
  | errUserExists
  /-- `storage.ErrUserNotFound`. Modelled from the spec: the storage package is
  an external collaborator that must signal a distinguishable not-found kind. -/
  | userNotFound
  /-- `storage.ErrAppNotFound`. Modelled from the spec: distinguishable
  app-not-found kind of the storage collaborator. -/
  | appNotFound
  /-- `storage.ErrUserExists`. Modelled from the spec: distinguishable
  already-exists kind of the storage collaborator. -/
  | userExistsStore
  /-- `bcrypt.ErrMismatchedHashAndPassword`. -/
  | bcryptMismatch
  /-- any error bcrypt returns for a malformed stored hash. -/
  | bcryptInvalidHash
  /-- error returned by bcrypt when the password exceeds 72 bytes. -/
  | bcryptTooLong
  /-- an arbitrary further collaborator error, indexed for distinctness. -/
  | otherErr (code : Nat)
deriving DecidableEq, Repr

/-- A Go error value as this program builds them: either a sentinel or a
wrapped error produced by `fmt.Errorf("%s: %w", op, err)`. -/
inductive GoErr where
  | base (k : BaseErr)
  | wrap (op : String) (cause : GoErr)
deriving DecidableEq, Repr

/-- `errors.Is(e, target)` for a sentinel target: walk the `%w` chain and
compare against the sentinel. -/
def errorsIs : GoErr → BaseErr → Bool
  | .base k, t => k == t
  | .wrap _ e, t => errorsIs e t

/-- A stored password hash as bcrypt treats it: either a well-formed salted
hash of some password, or malformed bytes. The salt makes hashing
non-deterministic; equality of hashes requires equality of salts. -/
inductive Hash where
  | hashed (salt : Nat) (password : List Nat)
  | malformed (raw : List Nat)
deriving DecidableEq, Repr

/-- `bcrypt.CompareHashAndPassword(hash, password)`: `none` on match, an error
on mismatch or on a malformed stored hash. -/
def CompareHashAndPassword : Hash → List Nat → Option GoErr
  | .hashed _ p, q => if p = q then none else some (.base .bcryptMismatch)
  | .malformed _, _ => some (.base .bcryptInvalidHash)

/-- `bcrypt.GenerateFromPassword(password, bcrypt.DefaultCost)`; the `salt`
argument makes the external randomness explicit. Fails only when the password
exceeds bcrypt's 72-byte limit. -/
def GenerateFromPassword (salt : Nat) (password : List Nat) : Except GoErr Hash :=
  if password.length > 72 then .error (.base .bcryptTooLong)
  else .ok (.hashed salt password)

/-- `models.User` as used by this core: integer id, name/email, password hash. -/
structure User where
  Id : Int
  Name : String
  PassHash : Hash
deriving DecidableEq, Repr

/-- `models.App`: tenant application id and its signing secret. -/
structure App where
  Id : Int
  Secret : String
deriving DecidableEq, Repr

/-- The claim set `jwt.NewToken` builds: it starts from an empty
`jwt.MapClaims` and sets exactly the keys `userId`, `email`, `exp`, `app_id`
(`email` is populated from `user.Name`, `exp` from `time.Now().Add(duration).Unix()`). -/
structure MapClaims where
  userId : Int
  email : String
  exp : Int
  app_id : Int
deriving DecidableEq, Repr

/-- A signed compact token, abstracted as its decodable content: the signing
method, the exact claim set, and the key the signature was produced with. -/
structure Token where
  method : String
  claims : MapClaims
  key : String
deriving DecidableEq, Repr

/-- `token.SignedString([]byte(app.Secret))` for a `jwt.New(jwt.SigningMethodHS256)`
token: serializes and signs the claim set with the secret. The `signFail`
argument exposes the library's possible signing failure as an input. -/
def signedString (signFail : Option GoErr) (c : MapClaims) (secret : String) :
    Except GoErr Token :=
  match signFail with
  | some e => .error e
  | none => .ok ⟨"HS256", c, secret⟩

/-- `jwt.NewToken(user, app, duration)` from `internal/lib/jwt.go`: build the
four claims and sign with the application secret. `now` is the Unix instant
`time.Now()` observed at issuance. -/
def NewToken (signFail : Option GoErr) (user : User) (app : App)
    (now duration : Int) : Except GoErr Token :=
  let claims : MapClaims :=
    { userId := user.Id, email := user.Name, exp := now + duration, app_id := app.Id }
  match signedString signFail claims app.Secret with
  | .error err => .error err
  | .ok tokenString => .ok tokenString

/-- The `Auth` service struct: the three injected collaborator capabilities
(`UserSaver`, `UserProvider`, `AppProvider`) and the configured token TTL.
The logger is omitted: it only receives diagnostics. Collaborators are pure
functions of their arguments, one call per operation as in the source. -/
structure Auth where
  userSaverSaveUser : String → Hash → Except GoErr Int
  userProviderUser : String → Except GoErr User
  userProviderIsAdmin : Int → Except GoErr Bool
  appProviderApp : Int → Except GoErr App
  tokenTTL : Int

/-- `Auth.Login` from `internal/services/auth/auth.go`: user lookup, password
verification, app lookup, token issuance, with the source's early-exit error
branches. The Go result `(string, error)` is `Option Token × Option GoErr`,
the empty string being `none`. -/
def Login (auth : Auth) (now : Int) (signFail : Option GoErr)
    (email : String) (password : List Nat) (appID : Int) :
    Option Token × Option GoErr :=
  let op := "auth.Login"
  match auth.userProviderUser email with
  | .error err =>
    if errorsIs err .userNotFound then
      (none, some (.wrap op (.base .errInvalidAppID)))
    else
      (none, some (.wrap op err))
  | .ok user =>
    match CompareHashAndPassword user.PassHash password with
    | some _ => (none, some (.wrap op (.base .errInvalidCredentials)))
    | none =>
      match auth.appProviderApp appID with
      | .error _ => (none, some (.wrap op (.base .appNotFound)))
      | .ok app =>
        match NewToken signFail user app now auth.tokenTTL with
        | .error err => (none, some (.wrap op err))
        | .ok token => (some token, none)

/-- `Auth.RegisterNewUser`: hash the password, save the user, classify the
already-exists failure (returned as the bare sentinel `ErrUserExists`). -/
def RegisterNewUser (auth : Auth) (salt : Nat) (email : String)
    (password : List Nat) : Int × Option GoErr :=
  let op := "auth.RegisterNewUser"
  match GenerateFromPassword salt password with
  | .error err => (0, some (.wrap op err))
  | .ok passHash =>
    match auth.userSaverSaveUser email passHash with
    | .error err =>
      if errorsIs err .userExistsStore then
        (0, some (.base .errUserExists))
      else
        (0, some (.wrap op err))
    | .ok userId => (userId, none)

/-- `Auth.isAdmin`: query the privilege flag, classify not-found as
`ErrInvalidAppID`, wrap other failures with the operation name. -/
def isAdmin (auth : Auth) (userID : Int) : Bool × Option GoErr :=
  let op := "auth.IsAdmin"
  match auth.userProviderIsAdmin userID with
  | .error err =>
    if errorsIs err .userNotFound then
      (false, some (.wrap op (.base .errInvalidAppID)))
    else
      (false, some (.wrap op err))
  | .ok flag => (flag, none)

/-- Modelled from the spec: the user store collaborator behind `UserSaver`
(not under `src/`), an email-keyed association list of password hashes. -/
def Store := List (String × Hash)

/-- Modelled from the spec: look an email up in the store. -/
def storeLookup (st : Store) (email : String) : Option Hash :=
  (List.find? (fun e => e.1 = email) st).map (fun e => e.2)

/-- Modelled from the spec: `SaveUser` of the user store writer. It signals a
distinguishable already-exists condition for a duplicate email and otherwise
inserts the pair and assigns a fresh id. -/
def storeSaveUser (st : Store) (email : String) (passHash : Hash) :
    Store × Except GoErr Int :=
  match storeLookup st email with
  | some _ => (st, .error (.base .userExistsStore))
  | none => ((email, passHash) :: st, .ok (Int.ofNat st.length + 1))

/-- `Auth.RegisterNewUser` run against the modelled user store, threading the
store state so that writes (or their absence) are observable. -/
def RegisterNewUserSt (st : Store) (salt : Nat) (email : String)
    (password : List Nat) : Store × Int × Option GoErr :=
  let op := "auth.RegisterNewUser"
  match GenerateFromPassword salt password with
  | .error err => (st, 0, some (.wrap op err))
  | .ok passHash =>
    match storeSaveUser st email passHash with
    | (st2, .error err) =>
      if errorsIs err .userExistsStore then
        (st2, 0, some (.base .errUserExists))
      else
        (st2, 0, some (.wrap op err))
    | (st2, .ok userId) => (st2, userId, none)

/-! Concrete collaborator environments used to exercise the theorems. -/

/-- A concrete user with a well-formed stored hash of password `[1, 2]`. -/
def userA : User := ⟨1, "alice", .hashed 5 [1, 2]⟩

/-- A concrete user whose stored hash is malformed. -/
def userB : User := ⟨2, "bob", .malformed [0]⟩

/-- A concrete tenant application. -/
def appA : App := ⟨9, "s3cret"⟩

/-- A service whose collaborators all succeed. -/
def authOk : Auth where
  userSaverSaveUser := fun _ _ => .ok 7
  userProviderUser := fun _ => .ok userA
  userProviderIsAdmin := fun _ => .ok true
  appProviderApp := fun _ => .ok appA
  tokenTTL := 3600

/-- The service with the user lookup reporting not-found. -/
def authUserMissing : Auth :=
  { authOk with userProviderUser := fun _ => .error (.base .userNotFound) }

/-- The service with the user lookup failing with an unclassified error. -/
def authUserErr : Auth :=
  { authOk with userProviderUser := fun _ => .error (.base (.otherErr 3)) }

/-- The service resolving a user whose stored hash is malformed. -/
def authBadHash : Auth :=
  { authOk with userProviderUser := fun _ => .ok userB }

/-- The service with the application lookup reporting not-found. -/
def authAppMissing : Auth :=
  { authOk with appProviderApp := fun _ => .error (.base .appNotFound) }

/-- The service with the application lookup failing with an unclassified error. -/
def authAppErr : Auth :=
  { authOk with appProviderApp := fun _ => .error (.base (.otherErr 4)) }

/-- The service with the user saver reporting already-exists. -/
def authSaveExists : Auth :=
  { authOk with userSaverSaveUser := fun _ _ => .error (.base .userExistsStore) }

/-- The service with the user saver failing with an unclassified error. -/
def authSaveErr : Auth :=
  { authOk with userSaverSaveUser := fun _ _ => .error (.base (.otherErr 5)) }

/-- The service with the privilege lookup reporting not-found. -/
def authAdminMissing : Auth :=
  { authOk with userProviderIsAdmin := fun _ => .error (.base .userNotFound) }

/-- The service with the privilege lookup failing with an unclassified error. -/
def authAdminErr : Auth :=
  { authOk with userProviderIsAdmin := fun _ => .error (.base (.otherErr 6)) }

/-! Helper lemmas shared by several developments. -/

/-- Wrapping with an operation name never erases a sentinel classification:
`errors.Is` looks through the `%w` chain. -/
theorem errorsIs_wrap (op : String) (e : GoErr) (t : BaseErr) :
    errorsIs (.wrap op e) t = errorsIs e t := rfl

/-- A wrapped error is never the raw error it wraps. -/
theorem wrap_ne (e : GoErr) : ∀ op : String, GoErr.wrap op e ≠ e := by
  induction e with
  | base k => intro op h; exact GoErr.noConfusion h
  | wrap op2 e2 ih =>
    intro op h
    injection h with h1 h2
    exact ih op2 h2

/-! Claim theorems. -/

/-- C1: for a login with an existing user email, the correct password, and an
application id the app provider resolves, `Login` returns a token signed with
the symmetric HS256 method under that application's secret, whose decoded
claim set is exactly the four claims: the resolved user's id, the user's
identity (`user.Name`, stored under the `email` key), the issuing
application's id, and expiry equal to the issuance instant plus the configured
`tokenTTL`. -/
theorem C1_login_issues_token (auth : Auth) (now : Int) (email : String)
    (password : List Nat) (appID : Int) (user : User) (app : App)
    (hu : auth.userProviderUser email = .ok user)
    (hp : CompareHashAndPassword user.PassHash password = none)
    (ha : auth.appProviderApp appID = .ok app) :
    Login auth now none email password appID =
      (some ⟨"HS256",
        ⟨user.Id, user.Name, now + auth.tokenTTL, app.Id⟩, app.Secret⟩, none) := by
  simp [Login, NewToken, signedString, hu, hp, ha]

/-- C1 witness: the theorem applied at a concrete service, user, application
and issuance instant. -/
theorem C1_login_issues_token_w :
    Login authOk 1000 none "a" [1, 2] 3 =
      (some ⟨"HS256", ⟨1, "alice", 4600, 9⟩, "s3cret"⟩, none) := by
  have h := C1_login_issues_token authOk 1000 "a" [1, 2] 3 userA appA rfl
    (by decide) rfl
  simpa [authOk, userA, appA] using h

/-- C2: when the user lookup succeeds but password verification fails — for
any failing cause, mismatch or malformed stored hash — `Login` fails with the
invalid-credentials classification, never an internal error; the result is one
constant independent of the cause, so the two causes are indistinguishable to
the caller. -/
theorem C2_login_invalid_credentials (auth : Auth) (now : Int)
    (sf : Option GoErr) (email : String) (password : List Nat) (appID : Int)
    (user : User) (e : GoErr)
    (hu : auth.userProviderUser email = .ok user)
    (hp : CompareHashAndPassword user.PassHash password = some e) :
    Login auth now sf email password appID =
      (none, some (.wrap "auth.Login" (.base .errInvalidCredentials)))
    ∧ errorsIs (.wrap "auth.Login" (.base .errInvalidCredentials))
        .errInvalidCredentials = true := by
  refine ⟨?_, rfl⟩
  simp [Login, hu, hp]

/-- C2 witness: the theorem at two concrete services, one failing by password
mismatch, one by a malformed stored hash; both yield the same error. -/
theorem C2_login_invalid_credentials_w :
    Login authOk 0 none "a" [9, 9] 3 =
      (none, some (.wrap "auth.Login" (.base .errInvalidCredentials)))
    ∧ Login authBadHash 0 none "a" [1, 2] 3 =
      (none, some (.wrap "auth.Login" (.base .errInvalidCredentials))) :=
  ⟨(C2_login_invalid_credentials authOk 0 none "a" [9, 9] 3 userA
      (.base .bcryptMismatch) rfl (by decide)).1,
   (C2_login_invalid_credentials authBadHash 0 none "a" [1, 2] 3 userB
      (.base .bcryptInvalidHash) rfl (by decide)).1⟩

/-- C3 counterexample: at concrete inputs, a login failing because the user
lookup reports not-found carries the `ErrInvalidAppID` sentinel, while a login
failing at the application lookup carries the `storage.ErrAppNotFound`
sentinel; classification checks distinguish the two errors, refuting the claim
that both failures surface the same sentinel kind. -/
theorem C3_counterexample :
    Login authUserMissing 0 none "a" [1, 2] 3 =
      (none, some (.wrap "auth.Login" (.base .errInvalidAppID)))
    ∧ Login authAppMissing 0 none "a" [1, 2] 3 =
      (none, some (.wrap "auth.Login" (.base .appNotFound)))
    ∧ errorsIs (.wrap "auth.Login" (.base .errInvalidAppID)) .errInvalidAppID
        ≠ errorsIs (.wrap "auth.Login" (.base .appNotFound)) .errInvalidAppID
    ∧ errorsIs (.wrap "auth.Login" (.base .errInvalidAppID)) .appNotFound
        ≠ errorsIs (.wrap "auth.Login" (.base .appNotFound)) .appNotFound := by
  refine ⟨by decide, by decide, by decide, by decide⟩

/-- C3 amended: a login failing on user-not-found is classified with the
`ErrInvalidAppID` ("invalid appID") sentinel, while a login failing at the
application lookup is classified with the distinct `storage.ErrAppNotFound`
sentinel; the two classifications are distinguishable by `errors.Is` checks. -/
theorem C3_not_found_classifications :
    (∀ (auth : Auth) (now : Int) (sf : Option GoErr) (email : String)
        (pw : List Nat) (appID : Int) (e : GoErr),
        auth.userProviderUser email = .error e →
        errorsIs e .userNotFound = true →
        (Login auth now sf email pw appID).2 =
          some (.wrap "auth.Login" (.base .errInvalidAppID)))
    ∧ (∀ (auth : Auth) (now : Int) (sf : Option GoErr) (email : String)
        (pw : List Nat) (appID : Int) (user : User) (e : GoErr),
        auth.userProviderUser email = .ok user →
        CompareHashAndPassword user.PassHash pw = none →
        auth.appProviderApp appID = .error e →
        (Login auth now sf email pw appID).2 =
          some (.wrap "auth.Login" (.base .appNotFound)))
    ∧ errorsIs (.wrap "auth.Login" (.base .errInvalidAppID)) .errInvalidAppID = true
    ∧ errorsIs (.wrap "auth.Login" (.base .appNotFound)) .errInvalidAppID = false
    ∧ errorsIs (.wrap "auth.Login" (.base .errInvalidAppID)) .appNotFound = false
    ∧ errorsIs (.wrap "auth.Login" (.base .appNotFound)) .appNotFound = true := by
  refine ⟨?_, ?_, rfl, rfl, rfl, rfl⟩
  · intro auth now sf email pw appID e hu hn
    simp [Login, hu, hn]
  · intro auth now sf email pw appID user e hu hp ha
    simp [Login, hu, hp, ha]

/-- C3 amended witness: both branches of the amended theorem at concrete
services. -/
theorem C3_not_found_classifications_w :
    (Login authUserMissing 0 none "a" [1, 2] 3).2 =
      some (.wrap "auth.Login" (.base .errInvalidAppID))
    ∧ (Login authAppMissing 0 none "a" [1, 2] 3).2 =
      some (.wrap "auth.Login" (.base .appNotFound)) :=
  ⟨C3_not_found_classifications.1 authUserMissing 0 none "a" [1, 2] 3
      (.base .userNotFound) rfl rfl,
   C3_not_found_classifications.2.1 authAppMissing 0 none "a" [1, 2] 3
      userA (.base .appNotFound) rfl (by decide) rfl⟩

/-- C4: once the application lookup is reached, any failure of it — the
not-found sentinel or an arbitrary other error `e` — makes `Login` fail with
the app-not-found classification; the result does not depend on `e`, so the
distinction between not-found and other collaborator failures is discarded. -/
theorem C4_app_lookup_failure (auth : Auth) (now : Int) (sf : Option GoErr)
    (email : String) (password : List Nat) (appID : Int) (user : User)
    (e : GoErr)
    (hu : auth.userProviderUser email = .ok user)
    (hp : CompareHashAndPassword user.PassHash password = none)
    (ha : auth.appProviderApp appID = .error e) :
    Login auth now sf email password appID =
      (none, some (.wrap "auth.Login" (.base .appNotFound)))
    ∧ errorsIs (.wrap "auth.Login" (.base .appNotFound)) .appNotFound = true := by
  refine ⟨?_, rfl⟩
  simp [Login, hu, hp, ha]

/-- C4 witness: the theorem at a concrete service whose app lookup fails with
the not-found sentinel, and at one failing with an unclassified error. -/
theorem C4_app_lookup_failure_w :
    Login authAppMissing 0 none "a" [1, 2] 3 =
      (none, some (.wrap "auth.Login" (.base .appNotFound)))
    ∧ Login authAppErr 0 none "a" [1, 2] 3 =
      (none, some (.wrap "auth.Login" (.base .appNotFound))) :=
  ⟨(C4_app_lookup_failure authAppMissing 0 none "a" [1, 2] 3 userA
      (.base .appNotFound) rfl (by decide) rfl).1,
   (C4_app_lookup_failure authAppErr 0 none "a" [1, 2] 3 userA
      (.base (.otherErr 4)) rfl (by decide) rfl).1⟩

/-- C5: registration classifies its persistence outcomes: an already-exists
report from the saver yields the user-exists classification (not an internal
error); any other persistence failure is wrapped with the operation name; on
success the saver's user id is returned unchanged. Against the modelled user
store, registering a fresh email stores the hash and assigns a fresh id, and
a second registration of the same email fails with user-exists while leaving
the store — hence the originally stored hash — unchanged. -/
theorem C5_register_outcomes :
    (∀ (auth : Auth) (salt : Nat) (email : String) (pw : List Nat)
        (h : Hash) (e : GoErr),
        GenerateFromPassword salt pw = .ok h →
        auth.userSaverSaveUser email h = .error e →
        errorsIs e .userExistsStore = true →
        RegisterNewUser auth salt email pw = (0, some (.base .errUserExists))
        ∧ errorsIs (GoErr.base .errUserExists) .errUserExists = true)
    ∧ (∀ (auth : Auth) (salt : Nat) (email : String) (pw : List Nat)
        (h : Hash) (e : GoErr),
        GenerateFromPassword salt pw = .ok h →
        auth.userSaverSaveUser email h = .error e →
        errorsIs e .userExistsStore = false →
        RegisterNewUser auth salt email pw =
          (0, some (.wrap "auth.RegisterNewUser" e)))
    ∧ (∀ (auth : Auth) (salt : Nat) (email : String) (pw : List Nat)
        (h : Hash) (uid : Int),
        GenerateFromPassword salt pw = .ok h →
        auth.userSaverSaveUser email h = .ok uid →
        RegisterNewUser auth salt email pw = (uid, none))
    ∧ (∀ (st : Store) (salt1 salt2 : Nat) (email : String) (pw1 pw2 : List Nat),
        pw1.length ≤ 72 → pw2.length ≤ 72 →
        storeLookup st email = none →
        RegisterNewUserSt st salt1 email pw1 =
          ((email, Hash.hashed salt1 pw1) :: st, Int.ofNat st.length + 1, none)
        ∧ storeLookup ((email, Hash.hashed salt1 pw1) :: st) email =
            some (.hashed salt1 pw1)
        ∧ RegisterNewUserSt ((email, Hash.hashed salt1 pw1) :: st) salt2 email pw2 =
            ((email, Hash.hashed salt1 pw1) :: st, 0,
              some (.base .errUserExists))) := by
  refine ⟨?_, ?_, ?_, ?_⟩
  · intro auth salt email pw h e hg hs he
    exact ⟨by simp [RegisterNewUser, hg, hs, he], rfl⟩
  · intro auth salt email pw h e hg hs he
    simp [RegisterNewUser, hg, hs, he]
  · intro auth salt email pw h uid hg hs
    simp [RegisterNewUser, hg, hs]
  · intro st salt1 salt2 email pw1 pw2 h1 h2 hl
    have g1 : GenerateFromPassword salt1 pw1 = .ok (.hashed salt1 pw1) := by
      simp [GenerateFromPassword, Nat.not_lt.mpr h1]
    have g2 : GenerateFromPassword salt2 pw2 = .ok (.hashed salt2 pw2) := by
      simp [GenerateFromPassword, Nat.not_lt.mpr h2]
    have hl2 : storeLookup ((email, Hash.hashed salt1 pw1) :: st) email =
        some (.hashed salt1 pw1) := by
      simp [storeLookup, List.find?]
    refine ⟨?_, hl2, ?_⟩
    · simp [RegisterNewUserSt, g1, storeSaveUser, hl]
    · simp [RegisterNewUserSt, g2, storeSaveUser, hl2, errorsIs]

/-- C5 witness: the already-exists, unclassified-failure and success branches
at concrete services, and the double-registration scenario on the empty
modelled store. -/
theorem C5_register_outcomes_w :
    RegisterNewUser authSaveExists 5 "a" [1, 2] =
      (0, some (.base .errUserExists))
    ∧ RegisterNewUser authSaveErr 5 "a" [1, 2] =
      (0, some (.wrap "auth.RegisterNewUser" (.base (.otherErr 5))))
    ∧ RegisterNewUser authOk 5 "a" [1, 2] = (7, none)
    ∧ RegisterNewUserSt ([] : Store) 5 "a" [1, 2] =
        ([("a", Hash.hashed 5 [1, 2])], 1, none) :=
  ⟨(C5_register_outcomes.1 authSaveExists 5 "a" [1, 2] (.hashed 5 [1, 2])
      (.base .userExistsStore) rfl rfl rfl).1,
   C5_register_outcomes.2.1 authSaveErr 5 "a" [1, 2] (.hashed 5 [1, 2])
      (.base (.otherErr 5)) rfl rfl rfl,
   C5_register_outcomes.2.2.1 authOk 5 "a" [1, 2] (.hashed 5 [1, 2]) 7
      rfl rfl,
   (C5_register_outcomes.2.2.2 ([] : Store) 5 6 "a" [1, 2] [3]
      (by decide) (by decide) rfl).1⟩

/-- C6: the admin-privilege check maps a not-found report of the user provider
to the invalid-request classification (the `ErrInvalidAppID` sentinel, which
the spec's taxonomy calls invalid-request), returns a successfully supplied
boolean flag exactly, and wraps any other provider failure with the operation
name. -/
theorem C6_isAdmin_outcomes :
    (∀ (auth : Auth) (uid : Int) (e : GoErr),
        auth.userProviderIsAdmin uid = .error e →
        errorsIs e .userNotFound = true →
        isAdmin auth uid =
          (false, some (.wrap "auth.IsAdmin" (.base .errInvalidAppID)))
        ∧ errorsIs (.wrap "auth.IsAdmin" (.base .errInvalidAppID))
            .errInvalidAppID = true)
    ∧ (∀ (auth : Auth) (uid : Int) (b : Bool),
        auth.userProviderIsAdmin uid = .ok b →
        isAdmin auth uid = (b, none))
    ∧ (∀ (auth : Auth) (uid : Int) (e : GoErr),
        auth.userProviderIsAdmin uid = .error e →
        errorsIs e .userNotFound = false →
        isAdmin auth uid = (false, some (.wrap "auth.IsAdmin" e))) := by
  refine ⟨?_, ?_, ?_⟩
  · intro auth uid e he hn
    exact ⟨by simp [isAdmin, he, hn], rfl⟩
  · intro auth uid b hb
    simp [isAdmin, hb]
  · intro auth uid e he hn
    simp [isAdmin, he, hn]

/-- C6 witness: the not-found, success and unclassified-failure branches at
concrete services. -/
theorem C6_isAdmin_outcomes_w :
    isAdmin authAdminMissing 1 =
      (false, some (.wrap "auth.IsAdmin" (.base .errInvalidAppID)))
    ∧ isAdmin authOk 1 = (true, none)
    ∧ isAdmin authAdminErr 1 =
      (false, some (.wrap "auth.IsAdmin" (.base (.otherErr 6)))) :=
  ⟨(C6_isAdmin_outcomes.1 authAdminMissing 1 (.base .userNotFound) rfl rfl).1,
   C6_isAdmin_outcomes.2.1 authOk 1 true rfl,
   C6_isAdmin_outcomes.2.2 authAdminErr 1 (.base (.otherErr 6)) rfl rfl⟩

/-- C7: every internal or unclassified collaborator or signing error — the
user lookup failing other than not-found, signing failing, password hashing
failing, the saver failing other than already-exists, the privilege lookup
failing other than not-found — is returned wrapped with the originating
operation's name; wrapping preserves every `errors.Is` classification, and the
wrapped error is never the raw collaborator error itself. -/
theorem C7_internal_errors_wrapped :
    (∀ (op : String) (e : GoErr) (t : BaseErr),
        errorsIs (.wrap op e) t = errorsIs e t)
    ∧ (∀ (op : String) (e : GoErr), GoErr.wrap op e ≠ e)
    ∧ (∀ (auth : Auth) (now : Int) (sf : Option GoErr) (email : String)
        (pw : List Nat) (appID : Int) (e : GoErr),
        auth.userProviderUser email = .error e →
        errorsIs e .userNotFound = false →
        (Login auth now sf email pw appID).2 = some (.wrap "auth.Login" e))
    ∧ (∀ (auth : Auth) (now : Int) (email : String) (pw : List Nat)
        (appID : Int) (user : User) (app : App) (e : GoErr),
        auth.userProviderUser email = .ok user →
        CompareHashAndPassword user.PassHash pw = none →
        auth.appProviderApp appID = .ok app →
        (Login auth now (some e) email pw appID).2 =
          some (.wrap "auth.Login" e))
    ∧ (∀ (auth : Auth) (salt : Nat) (email : String) (pw : List Nat) (e : GoErr),
        GenerateFromPassword salt pw = .error e →
        (RegisterNewUser auth salt email pw).2 =
          some (.wrap "auth.RegisterNewUser" e))
    ∧ (∀ (auth : Auth) (salt : Nat) (email : String) (pw : List Nat)
        (h : Hash) (e : GoErr),
        GenerateFromPassword salt pw = .ok h →
        auth.userSaverSaveUser email h = .error e →
        errorsIs e .userExistsStore = false →
        (RegisterNewUser auth salt email pw).2 =
          some (.wrap "auth.RegisterNewUser" e))
    ∧ (∀ (auth : Auth) (uid : Int) (e : GoErr),
        auth.userProviderIsAdmin uid = .error e →
        errorsIs e .userNotFound = false →
        (isAdmin auth uid).2 = some (.wrap "auth.IsAdmin" e)) := by
  refine ⟨fun _ _ _ => rfl, fun op e => wrap_ne e op, ?_, ?_, ?_, ?_, ?_⟩
  · intro auth now sf email pw appID e hu hn
    simp [Login, hu, hn]
  · intro auth now email pw appID user app e hu hp ha
    simp [Login, NewToken, signedString, hu, hp, ha]
  · intro auth salt email pw e hg
    simp [RegisterNewUser, hg]
  · intro auth salt email pw h e hg hs hn
    simp [RegisterNewUser, hg, hs, hn]
  · intro auth uid e he hn
    simp [isAdmin, he, hn]

/-- C7 witness: each wrapped-error branch at a concrete service: unclassified
user-lookup failure, signing failure, over-long password, unclassified saver
failure, unclassified privilege-lookup failure. -/
theorem C7_internal_errors_wrapped_w :
    (Login authUserErr 0 none "a" [1, 2] 3).2 =
      some (.wrap "auth.Login" (.base (.otherErr 3)))
    ∧ (Login authOk 0 (some (.base (.otherErr 9))) "a" [1, 2] 3).2 =
      some (.wrap "auth.Login" (.base (.otherErr 9)))
    ∧ (RegisterNewUser authOk 5 "a" (List.replicate 73 0)).2 =
      some (.wrap "auth.RegisterNewUser" (.base .bcryptTooLong))
    ∧ (RegisterNewUser authSaveErr 5 "a" [1, 2]).2 =
      some (.wrap "auth.RegisterNewUser" (.base (.otherErr 5)))
    ∧ (isAdmin authAdminErr 1).2 =
      some (.wrap "auth.IsAdmin" (.base (.otherErr 6))) :=
  ⟨C7_internal_errors_wrapped.2.2.1 authUserErr 0 none "a" [1, 2] 3
      (.base (.otherErr 3)) rfl rfl,
   C7_internal_errors_wrapped.2.2.2.1 authOk 0 "a" [1, 2] 3 userA appA
      (.base (.otherErr 9)) rfl (by decide) rfl,
   C7_internal_errors_wrapped.2.2.2.2.1 authOk 5 "a" (List.replicate 73 0)
      (.base .bcryptTooLong) rfl,
   C7_internal_errors_wrapped.2.2.2.2.2.1 authSaveErr 5 "a" [1, 2]
      (.hashed 5 [1, 2]) (.base (.otherErr 5)) rfl rfl rfl,
   C7_internal_errors_wrapped.2.2.2.2.2.2 authAdminErr 1
      (.base (.otherErr 6)) rfl rfl⟩

/-- C8: Login exits early: when the user lookup fails, or when it succeeds but
password verification fails, the result is identical for any two appId values,
any two application providers and any two token-issuer states — the later
collaborators are never consulted. -/
theorem C8_login_early_exit :
    (∀ (auth : Auth) (f g : Int → Except GoErr App) (now : Int)
        (sf1 sf2 : Option GoErr) (email : String) (pw : List Nat)
        (a1 a2 : Int) (e : GoErr),
        auth.userProviderUser email = .error e →
        Login { auth with appProviderApp := f } now sf1 email pw a1 =
          Login { auth with appProviderApp := g } now sf2 email pw a2)
    ∧ (∀ (auth : Auth) (f g : Int → Except GoErr App) (now : Int)
        (sf1 sf2 : Option GoErr) (email : String) (pw : List Nat)
        (a1 a2 : Int) (user : User) (e : GoErr),
        auth.userProviderUser email = .ok user →
        CompareHashAndPassword user.PassHash pw = some e →
        Login { auth with appProviderApp := f } now sf1 email pw a1 =
          Login { auth with appProviderApp := g } now sf2 email pw a2) := by
  constructor
  · intro auth f g now sf1 sf2 email pw a1 a2 e hu
    simp [Login, hu]
  · intro auth f g now sf1 sf2 email pw a1 a2 user e hu hp
    simp [Login, hu, hp]

/-- C8 witness: a failed user lookup and a failed password verification give
the same result under two different app providers, signing states and appIds. -/
theorem C8_login_early_exit_w :
    Login { authUserMissing with appProviderApp := fun _ => .ok appA } 0 none
        "a" [1, 2] 3 =
      Login { authUserMissing with
          appProviderApp := fun _ => .error (.base (.otherErr 8)) } 0
        (some (.base (.otherErr 9))) "a" [1, 2] 4
    ∧ Login { authOk with appProviderApp := fun _ => .ok appA } 0 none
        "a" [9, 9] 3 =
      Login { authOk with
          appProviderApp := fun _ => .error (.base (.otherErr 8)) } 0
        (some (.base (.otherErr 9))) "a" [9, 9] 4 :=
  ⟨C8_login_early_exit.1 authUserMissing (fun _ => .ok appA)
      (fun _ => .error (.base (.otherErr 8))) 0 none
      (some (.base (.otherErr 9))) "a" [1, 2] 3 4 (.base .userNotFound) rfl,
   C8_login_early_exit.2 authOk (fun _ => .ok appA)
      (fun _ => .error (.base (.otherErr 8))) 0 none
      (some (.base (.otherErr 9))) "a" [9, 9] 3 4 userA
      (.base .bcryptMismatch) rfl (by decide)⟩

/-- C9: on every failure path each operation returns the zero value of its
result type alongside the error: Login yields the empty token, RegisterNewUser
the user id 0, the admin check false — equivalently, every result has a `none`
error or a zero value. -/
theorem C9_zero_value_with_error :
    (∀ (auth : Auth) (now : Int) (sf : Option GoErr) (email : String)
        (pw : List Nat) (appID : Int),
        (Login auth now sf email pw appID).2 = none ∨
        (Login auth now sf email pw appID).1 = none)
    ∧ (∀ (auth : Auth) (salt : Nat) (email : String) (pw : List Nat),
        (RegisterNewUser auth salt email pw).2 = none ∨
        (RegisterNewUser auth salt email pw).1 = 0)
    ∧ (∀ (auth : Auth) (uid : Int),
        (isAdmin auth uid).2 = none ∨ (isAdmin auth uid).1 = false) := by
  refine ⟨?_, ?_, ?_⟩
  · intro auth now sf email pw appID
    cases hu : auth.userProviderUser email with
    | error e =>
      by_cases hn : errorsIs e .userNotFound = true <;> simp [Login, hu, hn]
    | ok user =>
      cases hp : CompareHashAndPassword user.PassHash pw with
      | some e => simp [Login, hu, hp]
      | none =>
        cases ha : auth.appProviderApp appID with
        | error e => simp [Login, hu, hp, ha]
        | ok app =>
          cases sf with
          | some e => simp [Login, NewToken, signedString, hu, hp, ha]
          | none => simp [Login, NewToken, signedString, hu, hp, ha]
  · intro auth salt email pw
    cases hg : GenerateFromPassword salt pw with
    | error e => simp [RegisterNewUser, hg]
    | ok h =>
      cases hs : auth.userSaverSaveUser email h with
      | error e =>
        by_cases hn : errorsIs e .userExistsStore = true <;>
          simp [RegisterNewUser, hg, hs, hn]
      | ok uid => simp [RegisterNewUser, hg, hs]
  · intro auth uid
    cases he : auth.userProviderIsAdmin uid with
    | error e =>
      by_cases hn : errorsIs e .userNotFound = true <;> simp [isAdmin, he, hn]
    | ok b => simp [isAdmin, he]

/-- C10: the user-exists failure of RegisterNewUser is the bare sentinel with
no operation-name wrapping, while Login's classified failures (invalid-appID
for user-not-found, invalid-credentials for a bad password) are wrapped with
the operation name; a bare sentinel is never equal to a wrapped error, so the
two operations expose asymmetric error shapes. -/
theorem C10_error_shape_asymmetry :
    (∀ (auth : Auth) (salt : Nat) (email : String) (pw : List Nat)
        (h : Hash) (e : GoErr),
        GenerateFromPassword salt pw = .ok h →
        auth.userSaverSaveUser email h = .error e →
        errorsIs e .userExistsStore = true →
        (RegisterNewUser auth salt email pw).2 = some (.base .errUserExists))
    ∧ (∀ (auth : Auth) (now : Int) (sf : Option GoErr) (email : String)
        (pw : List Nat) (appID : Int) (e : GoErr),
        auth.userProviderUser email = .error e →
        errorsIs e .userNotFound = true →
        (Login auth now sf email pw appID).2 =
          some (.wrap "auth.Login" (.base .errInvalidAppID)))
    ∧ (∀ (auth : Auth) (now : Int) (sf : Option GoErr) (email : String)
        (pw : List Nat) (appID : Int) (user : User) (e : GoErr),
        auth.userProviderUser email = .ok user →
        CompareHashAndPassword user.PassHash pw = some e →
        (Login auth now sf email pw appID).2 =
          some (.wrap "auth.Login" (.base .errInvalidCredentials)))
    ∧ (∀ (op : String) (e : GoErr),
        GoErr.base .errUserExists ≠ GoErr.wrap op e) := by
  refine ⟨?_, ?_, ?_, ?_⟩
  · intro auth salt email pw h e hg hs hn
    simp [RegisterNewUser, hg, hs, hn]
  · intro auth now sf email pw appID e hu hn
    simp [Login, hu, hn]
  · intro auth now sf email pw appID user e hu hp
    simp [Login, hu, hp]
  · intro op e h
    exact GoErr.noConfusion h

/-- C10 witness: the bare user-exists error and Login's two wrapped classified
errors at concrete services. -/
theorem C10_error_shape_asymmetry_w :
    (RegisterNewUser authSaveExists 5 "a" [1, 2]).2 =
      some (.base .errUserExists)
    ∧ (Login authUserMissing 0 none "a" [1, 2] 3).2 =
      some (.wrap "auth.Login" (.base .errInvalidAppID))
    ∧ (Login authOk 0 none "a" [9, 9] 3).2 =
      some (.wrap "auth.Login" (.base .errInvalidCredentials)) :=
  ⟨C10_error_shape_asymmetry.1 authSaveExists 5 "a" [1, 2] (.hashed 5 [1, 2])
      (.base .userExistsStore) rfl rfl rfl,
   C10_error_shape_asymmetry.2.1 authUserMissing 0 none "a" [1, 2] 3
      (.base .userNotFound) rfl rfl,
   C10_error_shape_asymmetry.2.2.1 authOk 0 none "a" [9, 9] 3 userA
      (.base .bcryptMismatch) rfl (by decide)⟩
